import Mathlib

/-!
Verification of the `chainHead` RPC dispatcher
(`client/rpc-spec-v2/src/chain_head/chain_head.rs`).

The handlers are embedded as pure functions: the results of the external
collaborators (the subscription table's `lock_block` / `unpin_block`, the
backend queries, the transport's accept) become explicit arguments, and the
handler's observable effects (what was done to the pending sink, the single
response, whether the subscription was removed, whether the backend was
invoked) become an explicit outcome record.
-/

namespace ChainHeadSpec

/-- `SubscriptionManagementError` as consumed by the dispatcher: the two
distinguished variants matched by name in `chain_head.rs`, plus the
catch-all arm `Err(error)` carrying `error.to_string()`. -/
inductive SubscriptionManagementError where
  | subscriptionAbsent
  | blockHashAbsent
  | other (msg : String)
deriving DecidableEq

/-- The block guard as seen by the dispatcher: the only observable it uses
is `has_runtime()` (in `chain_head_unstable_call`). -/
structure BlockGuard where
  has_runtime : Bool
deriving DecidableEq

/-- `ChainHeadRpcError` variants used by `chain_head.rs`. -/
inductive ChainHeadRpcError where
  | invalidBlock
  | invalidParam (s : String)
  | fetchBlockHeader (s : String)
deriving DecidableEq

/-- `ChainHeadEvent` of the one-shot streams: `Done(ChainHeadResult)`,
`Error(ErrorEvent)`, `Disjoint`. -/
inductive ChainHeadEvent (α : Type) where
  | done (result : α)
  | error (msg : String)
  | disjoint
deriving DecidableEq

/-- `sc_rpc::utils::SubscriptionResponse`: either the transport stream is
closed without an event, or exactly one event is produced. -/
inductive SubscriptionResponse (α : Type) where
  | closed
  | event (e : α)
deriving DecidableEq

/-- What a handler did to its pending sink: attempted `accept().await`
(whose success is the transport's choice), or rejected it with an error. -/
inductive SinkAction where
  | acceptAttempted (ok : Bool)
  | rejected (e : ChainHeadRpcError)
deriving DecidableEq

/-- Modelled from the spec: the hex-digit decoder underlying
`array_bytes::hex2bytes` (the crate is external to the repository).
Accepts `0-9`, `a-f`, `A-F`. -/
def hexDigit (c : Char) : Option Nat :=
  if '0' ≤ c ∧ c ≤ '9' then some (c.toNat - 48)
  else if 'a' ≤ c ∧ c ≤ 'f' then some (c.toNat - 87)
  else if 'A' ≤ c ∧ c ≤ 'F' then some (c.toNat - 55)
  else none

/-- Modelled from the spec: pairwise hex decoding; fails on odd length or a
non-hex digit. -/
def decodeHexPairs : List Char → Option (List Nat)
  | [] => some []
  | c1 :: c2 :: rest =>
    match hexDigit c1, hexDigit c2, decodeHexPairs rest with
    | some hi, some lo, some tail => some ((16 * hi + lo) :: tail)
    | _, _, _ => none
  | [_] => none

/-- Modelled from the spec: `hex2bytes` strips one optional leading `0x`. -/
def strip0x : List Char → List Char
  | '0' :: 'x' :: rest => rest
  | cs => cs

/-- Modelled from the spec: `array_bytes::hex2bytes` — strip an optional
`0x`, then decode hex pairs; `Err` on odd length or non-hex input. -/
def hex2bytes (s : String) : Option (List Nat) :=
  decodeHexPairs (strip0x s.data)

/-- Outcome of `parse_hex_param`: the parsed bytes on success, and the
rejection performed on the pending sink on failure. -/
structure ParseOutcome where
  result : Option (List Nat)
  rejectedWith : Option ChainHeadRpcError
deriving DecidableEq

/-- `parse_hex_param` from `chain_head.rs`: the empty string parses to empty
bytes; otherwise `hex2bytes`, rejecting the pending sink with
`InvalidParam(param)` on failure. -/
def parse_hex_param (param : String) : ParseOutcome :=
  if param.isEmpty then ⟨some [], none⟩
  else
    match hex2bytes param with
    | some bytes => ⟨some bytes, none⟩
    | none => ⟨none, some (ChainHeadRpcError.invalidParam param)⟩

/-- Lowercase hex digit character, as produced by `HexDisplay`. -/
def hexChar (n : Nat) : Char :=
  if n < 10 then Char.ofNat (48 + n) else Char.ofNat (87 + n)

/-- Two lowercase hex characters per byte, in order. -/
def hexEncodeChars : List Nat → List Char
  | [] => []
  | b :: bs => hexChar (b / 16) :: hexChar (b % 16) :: hexEncodeChars bs

/-- `format!("0x{:?}", HexDisplay::from(&bytes))`: `0x` followed by the
lowercase hex encoding, no separators. -/
def hexDisplay (bytes : List Nat) : String :=
  String.mk ('0' :: 'x' :: hexEncodeChars bytes)

/-- Observable outcome of one subscription-style handler run: the action on
the pending sink, the `SubscriptionResponse` produced, whether
`remove_subscription` was invoked on the follow subscription, and whether a
backend query/call was invoked. -/
structure HandlerOutcome (α : Type) where
  sink : SinkAction
  response : SubscriptionResponse (ChainHeadEvent α)
  removedSubscription : Bool
  backendInvoked : Bool
deriving DecidableEq

/-- `chain_head_unstable_body`.  `lockResult` is the subscription table's
`lock_block` answer, `acceptOk` whether the transport acceptance succeeds,
and `blockResult` the backend `client.block(hash)` answer with the block's
SCALE-encoded extrinsics abstracted as their byte list. -/
def chain_head_unstable_body
    (lockResult : Except SubscriptionManagementError BlockGuard)
    (acceptOk : Bool)
    (blockResult : Except String (Option (List Nat))) :
    HandlerOutcome String :=
  match lockResult with
  | .error .subscriptionAbsent =>
    ⟨.acceptAttempted acceptOk, .event .disjoint, false, false⟩
  | .error .blockHashAbsent =>
    ⟨.rejected .invalidBlock, .closed, false, false⟩
  | .error (.other msg) =>
    ⟨.acceptAttempted acceptOk, .event (.error msg), false, false⟩
  | .ok _guard =>
    if acceptOk then
      match blockResult with
      | .ok (some extrinsicBytes) =>
        ⟨.acceptAttempted true, .event (.done (hexDisplay extrinsicBytes)), false, true⟩
      | .ok none =>
        ⟨.acceptAttempted true, .event .disjoint, true, true⟩
      | .error err =>
        ⟨.acceptAttempted true, .event (.error err), false, true⟩
    else
      ⟨.acceptAttempted false, .closed, false, false⟩

/-- `chain_head_unstable_header`: synchronous; `headerResult` is the backend
`client.header(hash)` answer with the SCALE-encoded header abstracted as
its byte list. -/
def chain_head_unstable_header
    (lockResult : Except SubscriptionManagementError BlockGuard)
    (headerResult : Except String (Option (List Nat))) :
    Except ChainHeadRpcError (Option String) :=
  match lockResult with
  | .error .subscriptionAbsent => .ok none
  | .error .blockHashAbsent => .error .invalidBlock
  | .error (.other _) => .error .invalidBlock
  | .ok _guard =>
    match headerResult with
    | .ok opt_header => .ok (opt_header.map hexDisplay)
    | .error err => .error (.fetchBlockHeader err)

/-- Modelled from the spec: `sp_core::storage::well_known_keys` is external
to the sources; the reserved child-storage namespace is the byte string
`:child_storage:`. -/
def childStorageKeyReserved : List Nat := ":child_storage:".data.map Char.toNat

/-- Modelled from the spec: the reserved default child-storage namespace is
the byte string `:child_storage:default:`. -/
def defaultChildStorageKeyReserved : List Nat :=
  ":child_storage:default:".data.map Char.toNat

/-- Modelled from the spec: `well_known_keys::is_child_storage_key` tests
whether `key` starts with `:child_storage:`. -/
def is_child_storage_key (key : List Nat) : Bool :=
  childStorageKeyReserved.isPrefixOf key

/-- Modelled from the spec: `well_known_keys::is_default_child_storage_key`
tests whether `key` starts with `:child_storage:default:`. -/
def is_default_child_storage_key (key : List Nat) : Bool :=
  defaultChildStorageKeyReserved.isPrefixOf key

/-- The spawned future of `chain_head_unstable_storage`: given the parsed
main key and optional parsed child key, produce the event and whether a
backend storage query was invoked.  `childStorageResult` and
`storageResult` are the backend answers, values abstracted as byte lists. -/
def storageQueryFut
    (keyBytes : List Nat) (childBytes : Option (List Nat))
    (childStorageResult storageResult : Except String (Option (List Nat))) :
    SubscriptionResponse (ChainHeadEvent (Option String)) × Bool :=
  match childBytes with
  | some ck =>
    if is_default_child_storage_key ck || is_child_storage_key ck then
      (.event (.done none), false)
    else
      match childStorageResult with
      | .ok value => (.event (.done (value.map hexDisplay)), true)
      | .error err => (.event (.error err), true)
  | none =>
    if is_default_child_storage_key keyBytes || is_child_storage_key keyBytes then
      (.event (.done none), false)
    else
      match storageResult with
      | .ok value => (.event (.done (value.map hexDisplay)), true)
      | .error err => (.event (.error err), true)

/-- The part of `chain_head_unstable_storage` after both hex parameters
parsed: the `lock_block` prologue, then the spawned query future. -/
def storageAfterParse
    (keyBytes : List Nat) (childBytes : Option (List Nat))
    (lockResult : Except SubscriptionManagementError BlockGuard)
    (acceptOk : Bool)
    (childStorageResult storageResult : Except String (Option (List Nat))) :
    HandlerOutcome (Option String) :=
  match lockResult with
  | .error .subscriptionAbsent =>
    ⟨.acceptAttempted acceptOk, .event .disjoint, false, false⟩
  | .error .blockHashAbsent =>
    ⟨.rejected .invalidBlock, .closed, false, false⟩
  | .error (.other msg) =>
    ⟨.acceptAttempted acceptOk, .event (.error msg), false, false⟩
  | .ok _guard =>
    if acceptOk then
      match storageQueryFut keyBytes childBytes childStorageResult storageResult with
      | (resp, invoked) => ⟨.acceptAttempted true, resp, false, invoked⟩
    else
      ⟨.acceptAttempted false, .closed, false, false⟩

/-- `chain_head_unstable_storage`: parse the main key, parse the child key
when provided (each rejecting with `InvalidParam` on failure), then the
common prologue and the query future. -/
def chain_head_unstable_storage
    (key : String) (child_key : Option String)
    (lockResult : Except SubscriptionManagementError BlockGuard)
    (acceptOk : Bool)
    (childStorageResult storageResult : Except String (Option (List Nat))) :
    HandlerOutcome (Option String) :=
  match (parse_hex_param key).result with
  | none => ⟨.rejected (.invalidParam key), .closed, false, false⟩
  | some keyBytes =>
    match child_key with
    | some ck =>
      match (parse_hex_param ck).result with
      | none => ⟨.rejected (.invalidParam ck), .closed, false, false⟩
      | some ckBytes =>
        storageAfterParse keyBytes (some ckBytes) lockResult acceptOk
          childStorageResult storageResult
    | none =>
      storageAfterParse keyBytes none lockResult acceptOk
        childStorageResult storageResult

/-- `chain_head_unstable_call`: parse `call_parameters`, run the prologue,
gate on `block_guard.has_runtime()`, then accept and run the runtime call.
`callResult` is the backend executor answer, abstracted as return bytes. -/
def chain_head_unstable_call
    (_function : String) (call_parameters : String)
    (lockResult : Except SubscriptionManagementError BlockGuard)
    (acceptOk : Bool)
    (callResult : Except String (List Nat)) :
    HandlerOutcome String :=
  match (parse_hex_param call_parameters).result with
  | none => ⟨.rejected (.invalidParam call_parameters), .closed, false, false⟩
  | some _params =>
    match lockResult with
    | .error .subscriptionAbsent =>
      ⟨.acceptAttempted acceptOk, .event .disjoint, false, false⟩
    | .error .blockHashAbsent =>
      ⟨.rejected .invalidBlock, .closed, false, false⟩
    | .error (.other msg) =>
      ⟨.acceptAttempted acceptOk, .event (.error msg), false, false⟩
    | .ok guard =>
      if !guard.has_runtime then
        ⟨.rejected (.invalidParam "The runtime updates flag must be set"),
          .closed, false, false⟩
      else if acceptOk then
        match callResult with
        | .ok returnBytes =>
          ⟨.acceptAttempted true, .event (.done (hexDisplay returnBytes)), false, true⟩
        | .error err =>
          ⟨.acceptAttempted true, .event (.error err), false, true⟩
      else
        ⟨.acceptAttempted false, .closed, false, false⟩

/-- `chain_head_unstable_unpin`: map the subscription table's `unpin_block`
answer to the RPC result. -/
def chain_head_unstable_unpin
    (unpinResult : Except SubscriptionManagementError Unit) :
    Except ChainHeadRpcError Unit :=
  match unpinResult with
  | .ok () => .ok ()
  | .error .subscriptionAbsent => .ok ()
  | .error .blockHashAbsent => .error .invalidBlock
  | .error (.other _) => .error .invalidBlock

/-- Which operation was performed on the wrapped (inner) pending sink. -/
inductive InnerDispatch where
  | innerAccepted
  | innerRejected
deriving DecidableEq

/-- `MaybePendingSubscription`: an option-cell around the transport's
pending sink; `inner = true` while the pending sink is still held. -/
structure MaybePendingSubscription where
  inner : Bool
deriving DecidableEq

/-- `MaybePendingSubscription::accept`: take the inner sink if present and
forward its `accept().await` result (`innerOk` is the transport's answer);
once consumed, return `Err(PendingSubscriptionAcceptError)` (modelled as
`Except.error ()`) without touching the inner sink.  Returns the call's
result, the new state, and the inner dispatch performed, if any. -/
def MaybePendingSubscription.accept (s : MaybePendingSubscription) (innerOk : Bool) :
    Except Unit Unit × MaybePendingSubscription × Option InnerDispatch :=
  if s.inner then
    ((if innerOk then .ok () else .error ()), ⟨false⟩, some .innerAccepted)
  else
    (.error (), ⟨false⟩, none)

/-- `MaybePendingSubscription::reject`: take the inner sink if present and
reject it; once consumed, a no-op. -/
def MaybePendingSubscription.reject (s : MaybePendingSubscription) :
    MaybePendingSubscription × Option InnerDispatch :=
  if s.inner then (⟨false⟩, some .innerRejected) else (⟨false⟩, none)

/-- A call made by a handler on its `MaybePendingSubscription`. -/
inductive DispatchOp where
  | acceptOp (innerOk : Bool)
  | rejectOp
deriving DecidableEq

/-- Run a sequence of accept/reject calls against the wrapper, counting how
many dispatches reach the inner pending sink. -/
def dispatchCount : MaybePendingSubscription → List DispatchOp → Nat
  | _, [] => 0
  | s, .acceptOp ok :: rest =>
    match s.accept ok with
    | (_, next, eff) => (if eff.isSome then 1 else 0) + dispatchCount next rest
  | s, .rejectOp :: rest =>
    match s.reject with
    | (next, eff) => (if eff.isSome then 1 else 0) + dispatchCount next rest

/-- Modelled from the spec: the subscription table (`subscription.rs` is
outside the sources).  Entries map a subscription id to its
`runtime_updates` flag; ids are unique. -/
abbrev SubscriptionTable : Type := List (String × Bool)

/-- Modelled from the spec: `insert(id, runtime_updates)` returns `None`
when `id` is already present (transport collision), leaving the table
unchanged; otherwise it records the subscription and hands the stop
receiver (abstracted away) to the caller together with the new table. -/
def insert_subscription (table : SubscriptionTable) (id : String)
    (runtime_updates : Bool) : Option SubscriptionTable :=
  if table.any (fun e => e.1 == id) then none
  else some ((id, runtime_updates) :: table)

/-- Modelled from the spec: `remove_subscription(id)` removes the entry;
idempotent. -/
def remove_subscription (table : SubscriptionTable) (id : String) :
    SubscriptionTable :=
  table.filter (fun e => e.1 != id)

/-- `FollowEvent` kinds on the follow stream. -/
inductive FollowEvent where
  | initialized
  | newBlock
  | bestBlockChanged
  | finalized
  | stop
deriving DecidableEq

/-- Observable outcome of `chain_head_unstable_follow`: the subscription
table afterwards, the handler's response, and whether a follower task was
spawned. -/
structure FollowOutcome where
  table : SubscriptionTable
  response : SubscriptionResponse FollowEvent
  spawned : Bool

/-- `chain_head_unstable_follow`: accept the subscription (obtaining the
transport-assigned `sub_id`), insert it into the table — answering a
terminal `Stop` event and spawning nothing on collision — otherwise spawn
the follower task (its eventual response abstracted as `taskResponse`) and
remove the subscription once the task ends. -/
def chain_head_unstable_follow
    (table : SubscriptionTable) (acceptOk : Bool) (sub_id : String)
    (runtime_updates : Bool)
    (taskResponse : SubscriptionResponse FollowEvent) : FollowOutcome :=
  if acceptOk then
    match insert_subscription table sub_id runtime_updates with
    | none => ⟨table, .event .stop, false⟩
    | some inserted => ⟨remove_subscription inserted sub_id, taskResponse, true⟩
  else
    ⟨table, .closed, false⟩

/-! ## Helper lemmas -/

/-- Decoding a lowercase hex digit character recovers the digit. -/
theorem hexDigit_hexChar : ∀ n : Fin 16, hexDigit (hexChar n.val) = some n.val := by
  decide

/-- Decoding the pairwise hex encoding of a byte list recovers the list. -/
theorem decodeHexPairs_hexEncodeChars :
    ∀ b : List Nat, (∀ x ∈ b, x < 256) → decodeHexPairs (hexEncodeChars b) = some b
  | [], _ => rfl
  | x :: xs, h => by
    have hx : x < 256 := h x (List.mem_cons_self x xs)
    have hhi : x / 16 < 16 := by omega
    have hlo : x % 16 < 16 := by omega
    have h1 := hexDigit_hexChar ⟨x / 16, hhi⟩
    have h2 := hexDigit_hexChar ⟨x % 16, hlo⟩
    have ih := decodeHexPairs_hexEncodeChars xs (fun y hy => h y (List.mem_cons_of_mem _ hy))
    simp only [hexEncodeChars, decodeHexPairs, h1, h2, ih]
    rw [show 16 * (x / 16) + x % 16 = x from Nat.div_add_mod x 16]

/-- A successful pairwise hex decode forces an even length and only hex
digit characters. -/
theorem decodeHexPairs_some_facts :
    ∀ (l : List Char) (b : List Nat), decodeHexPairs l = some b →
      l.length % 2 = 0 ∧ ∀ c ∈ l, (hexDigit c).isSome
  | [], _, _ => by simp
  | [c], b, h => by simp [decodeHexPairs] at h
  | c1 :: c2 :: rest, b, h => by
    cases h1 : hexDigit c1 with
    | none => simp [decodeHexPairs, h1] at h
    | some hi =>
      cases h2 : hexDigit c2 with
      | none => simp [decodeHexPairs, h1, h2] at h
      | some lo =>
        cases h3 : decodeHexPairs rest with
        | none => simp [decodeHexPairs, h1, h2, h3] at h
        | some tail =>
          obtain ⟨he, hall⟩ := decodeHexPairs_some_facts rest tail h3
          refine ⟨by simp [List.length_cons]; omega, ?_⟩
          intro c hc
          rcases List.mem_cons.mp hc with rfl | hc2
          · simp [h1]
          · rcases List.mem_cons.mp hc2 with rfl | hc3
            · simp [h2]
            · exact hall c hc3

/-- Stripping an optional `0x` does not change the length parity. -/
theorem strip0x_length_parity (l : List Char) :
    (strip0x l).length % 2 = l.length % 2 := by
  unfold strip0x
  split
  · simp [List.length_cons]
    omega
  · rfl

/-- `0x`-prefixed hex renderings are never the empty string. -/
theorem hexDisplay_not_empty (b : List Nat) : (hexDisplay b).isEmpty = false := by
  cases hb : (hexDisplay b).isEmpty with
  | false => rfl
  | true =>
    have hs : hexDisplay b = "" := (String.isEmpty_iff _).mp hb
    have hd : ('0' :: 'x' :: hexEncodeChars b) = ([] : List Char) := congrArg String.data hs
    simp at hd

/-- Round-trip: parsing the `0x`-prefixed lowercase hex rendering of a byte
list recovers the byte list without any rejection. -/
theorem parse_hex_param_roundtrip (b : List Nat) (hb : ∀ x ∈ b, x < 256) :
    parse_hex_param (hexDisplay b) = ⟨some b, none⟩ := by
  have hsome : hex2bytes (hexDisplay b) = some b := decodeHexPairs_hexEncodeChars b hb
  simp [parse_hex_param, hexDisplay_not_empty b, hsome]

/-- Odd-length parameters are rejected with `InvalidParam` on the input. -/
theorem parse_hex_param_odd (s : String) (h : s.data.length % 2 = 1) :
    parse_hex_param s = ⟨none, some (ChainHeadRpcError.invalidParam s)⟩ := by
  have hne : s.isEmpty = false := by
    cases hb : s.isEmpty with
    | false => rfl
    | true =>
      have hs : s = "" := (String.isEmpty_iff _).mp hb
      subst hs
      simp at h
  have hnone : hex2bytes s = none := by
    cases hx : hex2bytes s with
    | none => rfl
    | some b =>
      unfold hex2bytes at hx
      obtain ⟨he, -⟩ := decodeHexPairs_some_facts _ b hx
      rw [strip0x_length_parity] at he
      omega
  simp [parse_hex_param, hne, hnone]

/-- Parameters containing a non-hex character (past the optional `0x`) are
rejected with `InvalidParam` on the input. -/
theorem parse_hex_param_nonhex (s : String) (hne : s.isEmpty = false)
    (h : ∃ c ∈ strip0x s.data, hexDigit c = none) :
    parse_hex_param s = ⟨none, some (ChainHeadRpcError.invalidParam s)⟩ := by
  obtain ⟨c, hc, hcd⟩ := h
  have hnone : hex2bytes s = none := by
    cases hx : hex2bytes s with
    | none => rfl
    | some b =>
      unfold hex2bytes at hx
      obtain ⟨-, hall⟩ := decodeHexPairs_some_facts _ b hx
      have hmem := hall c hc
      rw [hcd] at hmem
      simp at hmem
  simp [parse_hex_param, hne, hnone]

/-- After the inner pending sink is consumed, no sequence of wrapper calls
dispatches anything to it. -/
theorem dispatchCount_consumed (ops : List DispatchOp) :
    dispatchCount ⟨false⟩ ops = 0 := by
  induction ops with
  | nil => rfl
  | cons op rest ih =>
    cases op with
    | acceptOp ok => simp [dispatchCount, MaybePendingSubscription.accept, ih]
    | rejectOp => simp [dispatchCount, MaybePendingSubscription.reject, ih]

/-! ## Claim theorems -/

/-- Claim C1: for every subscription-style request (body, storage, call)
the common prologue classifies the `lock_block` result uniformly: on
`BlockHashAbsent` the pending sink is rejected with `InvalidBlock` and the
request never becomes a stream (no event is emitted, the response is
`Closed`); on `SubscriptionAbsent` the sink is accepted and exactly one
terminal `Disjoint` event is emitted. -/
theorem prologue_classifies_lock_errors
    (acceptOk : Bool)
    (blockResult : Except String (Option (List Nat)))
    (key ck : String) (kb cb : List Nat)
    (hk : (parse_hex_param key).result = some kb)
    (hc : (parse_hex_param ck).result = some cb)
    (csr sr : Except String (Option (List Nat)))
    (f params : String) (pb : List Nat)
    (hp : (parse_hex_param params).result = some pb)
    (callResult : Except String (List Nat)) :
    chain_head_unstable_body (.error .subscriptionAbsent) acceptOk blockResult =
      ⟨.acceptAttempted acceptOk, .event .disjoint, false, false⟩ ∧
    chain_head_unstable_body (.error .blockHashAbsent) acceptOk blockResult =
      ⟨.rejected .invalidBlock, .closed, false, false⟩ ∧
    chain_head_unstable_storage key none (.error .subscriptionAbsent) acceptOk csr sr =
      ⟨.acceptAttempted acceptOk, .event .disjoint, false, false⟩ ∧
    chain_head_unstable_storage key none (.error .blockHashAbsent) acceptOk csr sr =
      ⟨.rejected .invalidBlock, .closed, false, false⟩ ∧
    chain_head_unstable_storage key (some ck) (.error .subscriptionAbsent) acceptOk csr sr =
      ⟨.acceptAttempted acceptOk, .event .disjoint, false, false⟩ ∧
    chain_head_unstable_storage key (some ck) (.error .blockHashAbsent) acceptOk csr sr =
      ⟨.rejected .invalidBlock, .closed, false, false⟩ ∧
    chain_head_unstable_call f params (.error .subscriptionAbsent) acceptOk callResult =
      ⟨.acceptAttempted acceptOk, .event .disjoint, false, false⟩ ∧
    chain_head_unstable_call f params (.error .blockHashAbsent) acceptOk callResult =
      ⟨.rejected .invalidBlock, .closed, false, false⟩ := by
  refine ⟨rfl, rfl, ?_, ?_, ?_, ?_, ?_, ?_⟩ <;>
    simp [chain_head_unstable_storage, chain_head_unstable_call, storageAfterParse,
      hk, hc, hp]

/-- Witness for C1 at concrete inputs. -/
theorem prologue_classifies_lock_errors_witness :
    chain_head_unstable_body (.error .subscriptionAbsent) true (.ok none) =
      ⟨.acceptAttempted true, .event .disjoint, false, false⟩ :=
  (prologue_classifies_lock_errors true (.ok none) "0x00" "0x01" [0] [1]
    (by decide) (by decide) (.ok none) (.ok none) "f" "" [] (by decide) (.ok [])).1

/-- Claim C2: when the call parameters parse and `lock_block` succeeds but
the guard reports `has_runtime() == false`, `chain_head_unstable_call`
rejects the pending sink with `InvalidParam` carrying exactly
"The runtime updates flag must be set", for every function name, and the
backend runtime-call path is never invoked. -/
theorem call_rejects_without_runtime_flag
    (f params : String) (pb : List Nat)
    (hp : (parse_hex_param params).result = some pb)
    (guard : BlockGuard) (hg : guard.has_runtime = false)
    (acceptOk : Bool) (callResult : Except String (List Nat)) :
    chain_head_unstable_call f params (.ok guard) acceptOk callResult =
      ⟨.rejected (.invalidParam "The runtime updates flag must be set"),
        .closed, false, false⟩ := by
  simp [chain_head_unstable_call, hp, hg]

/-- Witness for C2 at concrete inputs. -/
theorem call_rejects_without_runtime_flag_witness :
    chain_head_unstable_call "Core_version" "0x" (.ok ⟨false⟩) true (.ok []) =
      ⟨.rejected (.invalidParam "The runtime updates flag must be set"),
        .closed, false, false⟩ :=
  call_rejects_without_runtime_flag "Core_version" "0x" [] (by decide) ⟨false⟩
    rfl true (.ok [])

/-- Claim C3: a body request whose `lock_block` succeeds but whose backend
fetch reports the block absent emits a terminal `Disjoint` event on the
accepted sink and removes the whole follow subscription; a backend error
instead emits an `Error` event carrying the error string and does not
remove the subscription. -/
theorem body_pruned_disjoint_backend_error
    (guard : BlockGuard) (err : String) :
    chain_head_unstable_body (.ok guard) true (.ok none) =
      ⟨.acceptAttempted true, .event .disjoint, true, true⟩ ∧
    chain_head_unstable_body (.ok guard) true (.error err) =
      ⟨.acceptAttempted true, .event (.error err), false, true⟩ :=
  ⟨rfl, rfl⟩

/-- Claim C4: a storage request whose keys parse and whose `lock_block`
succeeds emits `Done` with a null result and never invokes the backend
storage or child-storage query whenever the effective query key (the
provided child key, otherwise the main key) starts with a reserved
child-storage namespace (`:child_storage:` or `:child_storage:default:`). -/
theorem storage_reserved_key_short_circuit
    (key ck : String) (kb cb : List Nat)
    (hk : (parse_hex_param key).result = some kb)
    (hc : (parse_hex_param ck).result = some cb)
    (guard : BlockGuard)
    (csr sr : Except String (Option (List Nat))) :
    (is_child_storage_key cb = true ∨ is_default_child_storage_key cb = true →
      chain_head_unstable_storage key (some ck) (.ok guard) true csr sr =
        ⟨.acceptAttempted true, .event (.done none), false, false⟩) ∧
    (is_child_storage_key kb = true ∨ is_default_child_storage_key kb = true →
      chain_head_unstable_storage key none (.ok guard) true csr sr =
        ⟨.acceptAttempted true, .event (.done none), false, false⟩) := by
  constructor
  · rintro (h | h) <;>
      simp [chain_head_unstable_storage, storageAfterParse, storageQueryFut, hk, hc, h]
  · rintro (h | h) <;>
      simp [chain_head_unstable_storage, storageAfterParse, storageQueryFut, hk, h]

/-- Witness for C4 at concrete inputs. -/
theorem storage_reserved_key_short_circuit_witness :
    chain_head_unstable_storage (hexDisplay [0])
      (some (hexDisplay childStorageKeyReserved)) (.ok ⟨true⟩) true
      (.ok none) (.ok none) =
      ⟨.acceptAttempted true, .event (.done none), false, false⟩ :=
  (storage_reserved_key_short_circuit (hexDisplay [0])
    (hexDisplay childStorageKeyReserved) [0] childStorageKeyReserved
    (by decide) (by decide) ⟨true⟩ (.ok none) (.ok none)).1 (Or.inl (by decide))

/-- Claim C5: on a successful `lock_block` the header request returns
`Ok(Some(hex header))` when the backend has the header, `Ok(None)` when it
has none (never an error for that case), and `Err(FetchBlockHeader)`
exactly when the backend lookup fails; an unpinned hash yields
`Err(InvalidBlock)`. -/
theorem header_contract
    (guard : BlockGuard) (headerBytes : List Nat) (err : String)
    (hr : Except String (Option (List Nat))) :
    chain_head_unstable_header (.ok guard) (.ok (some headerBytes)) =
      .ok (some (hexDisplay headerBytes)) ∧
    chain_head_unstable_header (.ok guard) (.ok none) = .ok none ∧
    chain_head_unstable_header (.ok guard) (.error err) =
      .error (.fetchBlockHeader err) ∧
    chain_head_unstable_header (.error .blockHashAbsent) hr = .error .invalidBlock :=
  ⟨rfl, rfl, rfl, rfl⟩

/-- Claim C6: `chain_head_unstable_unpin` maps `SubscriptionAbsent` to
`Ok(())` (a silent no-op), `BlockHashAbsent` to `InvalidBlock`, and a
successful `unpin_block` to `Ok(())`. -/
theorem unpin_contract :
    chain_head_unstable_unpin (.error .subscriptionAbsent) = .ok () ∧
    chain_head_unstable_unpin (.error .blockHashAbsent) = .error .invalidBlock ∧
    chain_head_unstable_unpin (.ok ()) = .ok () :=
  ⟨rfl, rfl, rfl⟩

/-- Claim C7: hex parameter parsing round-trips — `0x` plus the lowercase
hex encoding of any byte string parses back to it; the empty string parses
to empty bytes without rejection; odd-length inputs and inputs with a
non-hex character (past the optional `0x`) reject the pending sink with
`InvalidParam` carrying the offending input and return no bytes. -/
theorem parse_hex_param_contract :
    (∀ b : List Nat, (∀ x ∈ b, x < 256) →
      parse_hex_param (hexDisplay b) = ⟨some b, none⟩) ∧
    parse_hex_param "" = ⟨some [], none⟩ ∧
    (∀ s : String, s.data.length % 2 = 1 →
      parse_hex_param s = ⟨none, some (.invalidParam s)⟩) ∧
    (∀ s : String, s.isEmpty = false → (∃ c ∈ strip0x s.data, hexDigit c = none) →
      parse_hex_param s = ⟨none, some (.invalidParam s)⟩) :=
  ⟨parse_hex_param_roundtrip, by decide, parse_hex_param_odd, parse_hex_param_nonhex⟩

/-- Witness for C7 at concrete inputs. -/
theorem parse_hex_param_contract_witness :
    parse_hex_param (hexDisplay [222, 173]) = ⟨some [222, 173], none⟩ ∧
    parse_hex_param "0x1" = ⟨none, some (.invalidParam "0x1")⟩ ∧
    parse_hex_param "zz" = ⟨none, some (.invalidParam "zz")⟩ :=
  ⟨parse_hex_param_contract.1 [222, 173] (by decide),
   parse_hex_param_contract.2.2.1 "0x1" (by decide),
   parse_hex_param_contract.2.2.2 "zz" (by decide) ⟨'z', by decide, by decide⟩⟩

/-- Claim C8: the pending-sink wrapper enforces exactly-once dispatch — the
first accept or reject consumes the inner pending sink, an accept after
consumption returns `Err(PendingSubscriptionAcceptError)` without
accepting, a reject after consumption is a no-op, and along any sequence
of wrapper calls at most one dispatch reaches the underlying sink. -/
theorem pending_sink_exactly_once :
    (∀ ok, MaybePendingSubscription.accept ⟨true⟩ ok =
      ((if ok then .ok () else .error ()), ⟨false⟩, some .innerAccepted)) ∧
    MaybePendingSubscription.reject ⟨true⟩ = (⟨false⟩, some .innerRejected) ∧
    (∀ ok, MaybePendingSubscription.accept ⟨false⟩ ok = (.error (), ⟨false⟩, none)) ∧
    MaybePendingSubscription.reject ⟨false⟩ = (⟨false⟩, none) ∧
    (∀ ops : List DispatchOp, dispatchCount ⟨true⟩ ops ≤ 1) := by
  refine ⟨fun ok => rfl, rfl, fun ok => rfl, rfl, fun ops => ?_⟩
  cases ops with
  | nil => simp [dispatchCount]
  | cons op rest =>
    cases op with
    | acceptOp ok =>
      simp [dispatchCount, MaybePendingSubscription.accept, dispatchCount_consumed]
    | rejectOp =>
      simp [dispatchCount, MaybePendingSubscription.reject, dispatchCount_consumed]

/-- Claim C9: a follow acceptance whose transport-assigned id collides with
an id already in the subscription table is refused —
`insert_subscription` returns `None`, no driver task is spawned, the
table (hence the existing subscription's state) is unchanged, and the
colliding stream receives a terminal `Stop` event. -/
theorem follow_collision_refused
    (table : SubscriptionTable) (sub_id : String) (runtime_updates : Bool)
    (taskResponse : SubscriptionResponse FollowEvent)
    (hcol : table.any (fun e => e.1 == sub_id) = true) :
    insert_subscription table sub_id runtime_updates = none ∧
    (chain_head_unstable_follow table true sub_id runtime_updates taskResponse).table =
      table ∧
    (chain_head_unstable_follow table true sub_id runtime_updates taskResponse).response =
      .event .stop ∧
    (chain_head_unstable_follow table true sub_id runtime_updates taskResponse).spawned =
      false := by
  have hins : insert_subscription table sub_id runtime_updates = none := by
    simp [insert_subscription, hcol]
  refine ⟨hins, ?_, ?_, ?_⟩ <;> simp [chain_head_unstable_follow, hins]

/-- Witness for C9 at concrete inputs. -/
theorem follow_collision_refused_witness :
    insert_subscription [("sub-1", true)] "sub-1" false = none :=
  (follow_collision_refused [("sub-1", true)] "sub-1" false (.event .stop)
    (by decide)).1

/-- Claim C10: a header request naming a subscription id absent from the
table returns `Ok(None)` — the very output produced for a pinned block
whose header the backend lacks — and every `lock_block` error other than
`SubscriptionAbsent` or `BlockHashAbsent` is likewise mapped to
`Err(InvalidBlock)`. -/
theorem header_absent_subscription_contract
    (guard : BlockGuard) (hr : Except String (Option (List Nat))) (msg : String) :
    chain_head_unstable_header (.error .subscriptionAbsent) hr = .ok none ∧
    chain_head_unstable_header (.error .subscriptionAbsent) hr =
      chain_head_unstable_header (.ok guard) (.ok none) ∧
    chain_head_unstable_header (.error (.other msg)) hr = .error .invalidBlock :=
  ⟨rfl, rfl, rfl⟩

end ChainHeadSpec




